import Mathlib

/-!
Verification of the similarity-search query builder, the upsert path and
the delete path of the recommender repository.

The embedding follows the two store classes of the source:

* VectorDB (src/app/database/vector_db.py): search builds a SQL plan from
  a metadata dictionary holding the keys genres, keywords,
  original_language and time_range; upsert runs one INSERT ... ON
  CONFLICT statement per record against a table whose id column is a
  SERIAL primary key.
* VectorStore (src/app/database/vector_store.py): search takes the
  time range as a separate optional argument; delete dispatches on
  exactly one of ids, metadata_filter and delete_all.

Python dictionaries preserve insertion order, so a filter mapping is
modelled as an association list iterated in list order.  Embedding
components are modelled as integers: the builder never computes with
them, it only serializes them with str and hands the list to the database
driver.  SQL text is modelled with its whitespace normalized to single
spaces.  Positional parameters keep the Python type of the bound value
(serialized vector string, raw list, string, integer), since the driver
adapts each type differently.
-/

namespace Recommender

/-- A positional query parameter as handed to cursor execution.  The
source binds values of four distinct Python types: the vector serialized
as a bracketed string, a raw Python list of floats, a plain string and an
integer. -/
inductive Param where
  | vecStr (s : String)
  | vecRaw (v : List Int)
  | str (s : String)
  | int (n : Int)
deriving DecidableEq

/-- A metadata filter value: a string for genres, keywords and
original_language, or a pair of years for time_range, which the source
types as a tuple of two ints. -/
inductive FilterValue where
  | str (v : String)
  | range (a b : Int)
deriving DecidableEq

/-- Serialization of the query embedding in search: a bracketed
comma-joined string of the components, as produced by joining the str of
each component. -/
def vectorToStr (e : List Int) : String :=
  "[" ++ String.intercalate "," (e.map toString) ++ "]"

/-- Splitting a character list on commas, the semantics of the Python
split method with a comma separator: splitting the empty string yields a
single empty piece, and n separators yield n + 1 pieces. -/
def splitAux (cs : List Char) (acc : List Char) : List (List Char) :=
  match cs with
  | [] => [acc.reverse]
  | c :: rest =>
      if c = ',' then acc.reverse :: splitAux rest []
      else splitAux rest (c :: acc)

/-- The Python strip method: drop leading and trailing whitespace. -/
def pyStrip (cs : List Char) : List Char :=
  ((cs.dropWhile Char.isWhitespace).reverse.dropWhile Char.isWhitespace).reverse

/-- The term list of a genres or keywords filter value: split on commas,
each term stripped of surrounding whitespace.  Mirrors the comprehension
in both search variants. -/
def splitTerms (v : String) : List String :=
  (splitAux v.data []).map (fun cs => String.mk (pyStrip cs))

/-- VectorDB private formatting of a year pair: pandas parses the year
with month and day attached, localizes to UTC and formats back with the
year-month-day format.  For four-digit years that round trip is the
identity on the formatted text, so the result is the pair of date strings
below: January 1 of the start year and December 31 of the end year. -/
def formatTimeRange (a b : Int) : String × String :=
  (toString a ++ "-01-01", toString b ++ "-12-31")

/-- One ILIKE condition over the metadata field of the given key. -/
def ilikeCond (key : String) : String :=
  "metadata->>\x27" ++ key ++ "\x27 ILIKE %s"

/-- One iteration of the loop over the metadata dictionary items in
VectorDB search: three independent if statements, each possibly appending
to the SQL text and the parameter list.  The state is the pair of the SQL
text built so far and the parameter list built so far. -/
def filterStep (st : String × List Param) (kv : String × FilterValue) :
    String × List Param :=
  let st :=
    if kv.1 = "genres" ∨ kv.1 = "keywords" then
      match kv.2 with
      | FilterValue.str v =>
          let terms := splitTerms v
          if terms.isEmpty then st
          else
            (st.1 ++ " AND (" ++
               String.intercalate " OR " (terms.map (fun _ => ilikeCond kv.1)) ++ ")",
             st.2 ++ terms.map (fun term => Param.str ("%" ++ term ++ "%")))
      | FilterValue.range _ _ => st
    else st
  let st :=
    if kv.1 = "original_language" then
      match kv.2 with
      | FilterValue.str v =>
          (st.1 ++ " AND metadata->>\x27original_language\x27 = %s",
           st.2 ++ [Param.str v])
      | FilterValue.range _ _ => st
    else st
  let st :=
    if kv.1 = "time_range" then
      match kv.2 with
      | FilterValue.range a b =>
          (st.1 ++ " AND (metadata->>\x27release_date\x27)::timestamp BETWEEN %s AND %s",
           st.2 ++ [Param.str (formatTimeRange a b).1, Param.str (formatTimeRange a b).2])
      | FilterValue.str _ => st
    else st
  st

/-- The loop over the metadata dictionary items in VectorDB search,
iterated in the insertion order of the mapping. -/
def applyFilters (st : String × List Param) (fs : List (String × FilterValue)) :
    String × List Param :=
  fs.foldl filterStep st

/-- The base SELECT of VectorDB search, whitespace normalized.  The first
placeholder receives the serialized query vector and computes the
returned similarity. -/
def baseSelectVDB : String :=
  "SELECT id, title, metadata, contents, 1 - (embedding <=> %s::vector) AS similarity FROM embeddings WHERE TRUE"

/-- The tail appended after the filters: ordering by raw distance against
a second vector placeholder, then the LIMIT placeholder. -/
def orderLimitSql : String :=
  " ORDER BY embedding <=> %s::vector LIMIT %s"

/-- The plan built by VectorDB search: the serialized vector is the first
parameter, the filter loop runs only when the metadata mapping is truthy,
and the ORDER BY placeholder is bound to the raw embedding list while the
SELECT placeholder was bound to the serialized string. -/
def vdbBuild (queryEmbedding : List Int) (limit : Int)
    (metadata : List (String × FilterValue)) : String × List Param :=
  let queryVectorStr := vectorToStr queryEmbedding
  let st := (baseSelectVDB, [Param.vecStr queryVectorStr])
  let st := if metadata.isEmpty then st else applyFilters st metadata
  (st.1 ++ orderLimitSql, st.2 ++ [Param.vecRaw queryEmbedding, Param.int limit])

/-- The default of the limit argument of VectorDB search. -/
def vdbDefaultLimit : Int := 5

/-- Validation errors named by the specification.  The source defines no
such class and raises none of them. -/
inductive SearchError where
  | invalidFilter (msg : String)
deriving DecidableEq

/-- VectorDB search up to cursor execution: the source validates neither
the limit nor the filter values, so for every well-typed input the plan
is built and handed to the cursor; the result is wrapped in Except to
record that no error is ever produced before the store is queried. -/
def vdbSearch (queryEmbedding : List Int) (limit : Int)
    (metadata : List (String × FilterValue)) :
    Except SearchError (String × List Param) :=
  Except.ok (vdbBuild queryEmbedding limit metadata)

/-- VectorDB search invoked without an explicit limit argument. -/
def vdbSearchDefault (queryEmbedding : List Int)
    (metadata : List (String × FilterValue)) :
    Except SearchError (String × List Param) :=
  vdbSearch queryEmbedding vdbDefaultLimit metadata

/-- One iteration of the loop over the metadata_filter items in
VectorStore search: an if chain testing original_language first, then
genres and keywords; time_range is not handled by this loop. -/
def vsFilterStep (st : String × List Param) (kv : String × FilterValue) :
    String × List Param :=
  if kv.1 = "original_language" then
    match kv.2 with
    | FilterValue.str v =>
        (st.1 ++ " AND metadata->>\x27original_language\x27 = %s",
         st.2 ++ [Param.str v])
    | FilterValue.range _ _ => st
  else if kv.1 = "genres" ∨ kv.1 = "keywords" then
    match kv.2 with
    | FilterValue.str v =>
        let terms := splitTerms v
        if terms.isEmpty then st
        else
          (st.1 ++ " AND (" ++
             String.intercalate " OR " (terms.map (fun _ => ilikeCond kv.1)) ++ ")",
           st.2 ++ terms.map (fun term => Param.str ("%" ++ term ++ "%")))
    | FilterValue.range _ _ => st
  else st

/-- The base SELECT of VectorStore search, whitespace normalized; unlike
VectorDB it does not select the title column. -/
def baseSelectVS : String :=
  "SELECT id, metadata, contents, 1 - (embedding <=> %s::vector) AS similarity FROM embeddings WHERE TRUE"

/-- The default of the limit argument of VectorStore search. -/
def vsDefaultLimit : Int := 10

/-- The plan built by VectorStore search: the time range is a separate
optional argument, a pair of datetimes modelled by their isoformat
strings, appended after the filter loop; the tail is the same raw
embedding list and limit as in VectorDB. -/
def vsBuild (queryEmbedding : List Int) (limit : Int)
    (metadataFilter : List (String × FilterValue))
    (timeRange : Option (String × String)) : String × List Param :=
  let queryVectorStr := vectorToStr queryEmbedding
  let st := (baseSelectVS, [Param.vecStr queryVectorStr])
  let st := if metadataFilter.isEmpty then st else metadataFilter.foldl vsFilterStep st
  let st :=
    match timeRange with
    | some se =>
        (st.1 ++ " AND (metadata->>\x27created_at\x27)::timestamp BETWEEN %s AND %s",
         st.2 ++ [Param.str se.1, Param.str se.2])
    | none => st
  (st.1 ++ orderLimitSql, st.2 ++ [Param.vecRaw queryEmbedding, Param.int limit])

/-- VectorStore search up to cursor execution: as with VectorDB, no
validation exists, so the plan is always built and executed. -/
def vsSearch (queryEmbedding : List Int) (limit : Int)
    (metadataFilter : List (String × FilterValue))
    (timeRange : Option (String × String)) :
    Except SearchError (String × List Param) :=
  Except.ok (vsBuild queryEmbedding limit metadataFilter timeRange)

/-- A record as fed to VectorDB upsert: the dataframe row carries title,
metadata, contents and embedding, and no id.  The metadata blob is opaque
to the statement and modelled as a string. -/
structure MovieRecord where
  title : String
  metadata : String
  contents : String
  embedding : List Int
deriving DecidableEq

/-- A row of the embeddings table of VectorDB: the id column is a SERIAL
primary key. -/
structure TableRow where
  id : Nat
  title : String
  metadata : String
  contents : String
  embedding : List Int
deriving DecidableEq

/-- The embeddings table together with the next value of the SERIAL id
sequence. -/
structure EmbeddingsTable where
  rows : List TableRow
  nextId : Nat
deriving DecidableEq

/-- A freshly created embeddings table: no rows, sequence at one. -/
def emptyTable : EmbeddingsTable := ⟨[], 1⟩

/-- One execution of the INSERT with conflict update in VectorDB upsert.
The INSERT names only title, metadata, contents and embedding, never id,
so the id of the new row is drawn from the SERIAL sequence; the conflict
branch on id fires only if the drawn value is already present, which
never happens when all ids come from the sequence. -/
def upsertRow (t : EmbeddingsTable) (r : MovieRecord) : EmbeddingsTable :=
  if t.rows.any (fun row => row.id = t.nextId) then
    ⟨t.rows.map (fun row =>
        if row.id = t.nextId then
          ⟨row.id, r.title, r.metadata, r.contents, r.embedding⟩
        else row),
      t.nextId + 1⟩
  else
    ⟨t.rows ++ [⟨t.nextId, r.title, r.metadata, r.contents, r.embedding⟩],
      t.nextId + 1⟩

/-- VectorDB upsert: one INSERT per dataframe row, in order, then a
single commit. -/
def upsert (t : EmbeddingsTable) (recordsDf : List MovieRecord) : EmbeddingsTable :=
  recordsDf.foldl upsertRow t

/-- The deletion call VectorStore delete issues to the underlying client:
exactly one of the three client methods. -/
inductive DeleteAction where
  | byIds (ids : List String)
  | byMetadata (filter : List (String × String))
  | all
deriving DecidableEq

/-- Python truthiness of an optional list-like argument: the None default
and an explicitly passed empty list or empty dictionary are all falsy. -/
def pyTruthy : Option (List α) → Bool
  | none => false
  | some l => !l.isEmpty

/-- The sum of booleans computed by the guard of VectorStore delete: how
many of the three criteria are truthy. -/
def specifiedCount (ids : Option (List String))
    (metadataFilter : Option (List (String × String))) (deleteAll : Bool) : Nat :=
  (if pyTruthy ids then 1 else 0) + (if pyTruthy metadataFilter then 1 else 0) +
    (if deleteAll then 1 else 0)

/-- The message of the error raised by the guard of VectorStore delete. -/
def deleteErrMsg : String :=
  "Provide exactly one of: ids, metadata_filter, or delete_all"

/-- VectorStore delete up to the client call.  An error value models the
raise in the guard, which happens before any client method is invoked, so
no records are touched; an ok value carries the single client deletion
issued.  The fall-through return with no action, unreachable under the
guard, is modelled by none. -/
def delete (ids : Option (List String))
    (metadataFilter : Option (List (String × String))) (deleteAll : Bool) :
    Except String (Option DeleteAction) :=
  if specifiedCount ids metadataFilter deleteAll ≠ 1 then
    Except.error deleteErrMsg
  else if deleteAll then Except.ok (some DeleteAction.all)
  else if pyTruthy ids then Except.ok (some (DeleteAction.byIds (ids.getD [])))
  else if pyTruthy metadataFilter then
    Except.ok (some (DeleteAction.byMetadata (metadataFilter.getD [])))
  else Except.ok none

/-- The parameters one metadata filter entry appends in VectorDB search,
stated entry-locally: the ILIKE pattern of each term for genres and
keywords, the language string for original_language, the two formatted
bounds for time_range, nothing for unrecognized keys. -/
def entryParams : String × FilterValue → List Param
  | (k, FilterValue.str v) =>
      (if k = "genres" ∨ k = "keywords" then
        (splitTerms v).map (fun term => Param.str ("%" ++ term ++ "%"))
      else []) ++
      (if k = "original_language" then [Param.str v] else [])
  | (k, FilterValue.range a b) =>
      if k = "time_range" then
        [Param.str (formatTimeRange a b).1, Param.str (formatTimeRange a b).2]
      else []

/-- The number of positional parameters one metadata filter entry
contributes in VectorDB search. -/
def contribution (kv : String × FilterValue) : Nat :=
  match kv.2 with
  | FilterValue.str v =>
      (if kv.1 = "genres" ∨ kv.1 = "keywords" then (splitTerms v).length else 0) +
      (if kv.1 = "original_language" then 1 else 0)
  | FilterValue.range _ _ => if kv.1 = "time_range" then 2 else 0

/-- Equality of Except values is decidable when both component types have
decidable equality; needed to evaluate the search and delete models on
concrete inputs. -/
instance [DecidableEq ε] [DecidableEq α] : DecidableEq (Except ε α) := fun x y =>
  match x, y with
  | Except.ok a, Except.ok b =>
      if h : a = b then isTrue (by rw [h])
      else isFalse (fun hc => h (Except.ok.inj hc))
  | Except.error a, Except.error b =>
      if h : a = b then isTrue (by rw [h])
      else isFalse (fun hc => h (Except.error.inj hc))
  | Except.ok _, Except.error _ => isFalse (fun hc => Except.noConfusion hc)
  | Except.error _, Except.ok _ => isFalse (fun hc => Except.noConfusion hc)

/-! Helper lemmas shared by the claim theorems. -/

theorem splitAux_ne_nil (cs acc : List Char) : splitAux cs acc ≠ [] := by
  induction cs generalizing acc with
  | nil => simp [splitAux]
  | cons c rest ih =>
      simp only [splitAux]
      split
      · simp
      · exact ih _

theorem splitTerms_ne_nil (v : String) : splitTerms v ≠ [] := by
  simp [splitTerms, splitAux_ne_nil]

theorem filterStep_params (st : String × List Param) (kv : String × FilterValue) :
    (filterStep st kv).2 = st.2 ++ entryParams kv := by
  rcases kv with ⟨k, v⟩
  cases v with
  | str s =>
      by_cases h1 : k = "genres" ∨ k = "keywords"
      · have h2 : ¬ k = "original_language" := by
          rcases h1 with h | h <;> subst h <;> decide
        have h3 : ¬ k = "time_range" := by
          rcases h1 with h | h <;> subst h <;> decide
        by_cases he : (splitTerms s).isEmpty
        · have hnil : splitTerms s = [] := List.isEmpty_iff.mp he
          simp [filterStep, entryParams, h1, h2, h3, he, hnil]
        · simp [filterStep, entryParams, h1, h2, h3, he]
      · by_cases h2 : k = "original_language"
        · have h3 : ¬ k = "time_range" := by subst h2; decide
          simp [filterStep, entryParams, h1, h2, h3]
        · by_cases h3 : k = "time_range" <;>
            simp [filterStep, entryParams, h1, h2, h3]
  | range a b =>
      by_cases h3 : k = "time_range"
      · have h1 : ¬ (k = "genres" ∨ k = "keywords") := by subst h3; decide
        have h2 : ¬ k = "original_language" := by subst h3; decide
        simp [filterStep, entryParams, h1, h2, h3]
      · by_cases h1 : k = "genres" ∨ k = "keywords" <;>
          by_cases h2 : k = "original_language" <;>
            simp [filterStep, entryParams, h1, h2, h3]

theorem applyFilters_params (fs : List (String × FilterValue)) (st : String × List Param) :
    (applyFilters st fs).2 = st.2 ++ (fs.map entryParams).flatten := by
  induction fs generalizing st with
  | nil => simp [applyFilters]
  | cons kv rest ih =>
      have step : applyFilters st (kv :: rest) = applyFilters (filterStep st kv) rest := rfl
      rw [step, ih, filterStep_params]
      simp

theorem entryParams_length (kv : String × FilterValue) :
    (entryParams kv).length = contribution kv := by
  rcases kv with ⟨k, v⟩
  cases v with
  | str s =>
      simp only [entryParams, contribution]
      split_ifs <;> simp
  | range a b =>
      simp only [entryParams, contribution]
      split_ifs <;> simp

theorem vdbBuild_params (e : List Int) (l : Int) (fs : List (String × FilterValue)) :
    (vdbBuild e l fs).2 =
      Param.vecStr (vectorToStr e) ::
        ((fs.map entryParams).flatten ++ [Param.vecRaw e, Param.int l]) := by
  by_cases h : fs.isEmpty
  · have hnil : fs = [] := List.isEmpty_iff.mp h
    subst hnil
    simp [vdbBuild]
  · have hb : fs.isEmpty = false := by
      cases hx : fs.isEmpty
      · rfl
      · exact absurd hx h
    have := applyFilters_params fs (baseSelectVDB, [Param.vecStr (vectorToStr e)])
    simp [vdbBuild, hb, this]

theorem getLast?_append_pair (xs : List α) (a b : α) :
    (xs ++ [a, b]).getLast? = some b := by
  rw [show xs ++ [a, b] = (xs ++ [a]) ++ [b] by simp, List.getLast?_concat]

/-! Claim theorems. -/

/-- Claim C1: the encoded query vector used in the SELECT similarity
expression is claimed to be the identical canonical representation as the
vector bound into the ORDER BY expression.  The code violates this: the
first parameter is always the serialized vector string, while the ORDER
BY placeholder is bound to the raw embedding list, a value of a different
type that the driver adapts differently; at embedding [1, 2] the two
bound values are distinct.  This contradicts the stated intent that the
two must never diverge. -/
theorem c1_select_orderby_divergence :
    (∀ (e : List Int) (l : Int) (md : List (String × FilterValue)),
      (vdbBuild e l md).2 =
        Param.vecStr (vectorToStr e) ::
          ((md.map entryParams).flatten ++ [Param.vecRaw e, Param.int l])) ∧
    (vdbBuild [1, 2] 5 []).2 = [Param.vecStr "[1,2]", Param.vecRaw [1, 2], Param.int 5] ∧
    Param.vecStr "[1,2]" ≠ Param.vecRaw [1, 2] :=
  ⟨vdbBuild_params, by decide, by decide⟩

/-- Claim C2 counterexample: two filter mappings with identical contents,
differing only in insertion order, yield different predicate text and
parameter order, and the mapping listing original_language first has its
language parameter bound before the genres parameter, not in the claimed
fixed key order. -/
theorem c2_counterexample :
    (vdbBuild [1] 5
        [("original_language", FilterValue.str "en"), ("genres", FilterValue.str "Comedy")]).2 =
      [Param.vecStr "[1]", Param.str "en", Param.str "%Comedy%",
       Param.vecRaw [1], Param.int 5] ∧
    vdbBuild [1] 5
        [("original_language", FilterValue.str "en"), ("genres", FilterValue.str "Comedy")] ≠
      vdbBuild [1] 5
        [("genres", FilterValue.str "Comedy"), ("original_language", FilterValue.str "en")] :=
  ⟨by decide, by decide⟩

/-- Claim C2 as amended: the builder appends filter sub-predicates and
their parameters in the iteration order of the filter mapping, one block
per entry processed left to right; no fixed key order is imposed, so only
mappings with the same iteration order are guaranteed identical output. -/
theorem c2_amended :
    (∀ (st : String × List Param) (fs1 fs2 : List (String × FilterValue)),
      applyFilters st (fs1 ++ fs2) = applyFilters (applyFilters st fs1) fs2) ∧
    (∀ (st : String × List Param) (fs : List (String × FilterValue)),
      (applyFilters st fs).2 = st.2 ++ (fs.map entryParams).flatten) :=
  ⟨fun st fs1 fs2 => List.foldl_append filterStep st fs1 fs2,
   fun st fs => applyFilters_params fs st⟩

set_option maxRecDepth 16384 in
/-- Claim C4 counterexample: a genres filter whose value is the empty
string does contribute a predicate and a parameter, because splitting the
empty string on commas yields a single empty term, which is truthy as a
list; the resulting condition carries the pattern of two percent signs
and matches every record with a non-null genres field. -/
theorem c4_counterexample :
    vdbBuild [1] 5 [("genres", FilterValue.str "")] =
      (baseSelectVDB ++ " AND (metadata->>\x27genres\x27 ILIKE %s)" ++ orderLimitSql,
       [Param.vecStr "[1]", Param.str "%%", Param.vecRaw [1], Param.int 5]) := by
  decide

/-- Claim C4 as amended: for genres and keywords the comma-split,
whitespace-trimmed term list is never empty, so every string value,
including the empty string, becomes an OR-disjunction of case-insensitive
contains checks with one parameter per term; the emptiness guard in the
code never fires. -/
theorem c4_amended (st : String × List Param) (v k : String)
    (hk : k = "genres" ∨ k = "keywords") :
    splitTerms v ≠ [] ∧
    filterStep st (k, FilterValue.str v) =
      (st.1 ++ " AND (" ++
         String.intercalate " OR " ((splitTerms v).map (fun _ => ilikeCond k)) ++ ")",
       st.2 ++ (splitTerms v).map (fun term => Param.str ("%" ++ term ++ "%"))) := by
  refine ⟨splitTerms_ne_nil v, ?_⟩
  have h2 : ¬ k = "original_language" := by
    rcases hk with h | h <;> subst h <;> decide
  have h3 : ¬ k = "time_range" := by
    rcases hk with h | h <;> subst h <;> decide
  have he : (splitTerms v).isEmpty = false :=
    List.isEmpty_eq_false.mpr (splitTerms_ne_nil v)
  simp [filterStep, hk, h2, h3, he]

/-- Witness for the amended claim C4, at the empty string. -/
theorem c4_witness :
    splitTerms "" ≠ [] ∧
    filterStep (baseSelectVDB, [Param.vecStr "[1]"]) ("genres", FilterValue.str "") =
      (baseSelectVDB ++ " AND (" ++
         String.intercalate " OR " ((splitTerms "").map (fun _ => ilikeCond "genres")) ++ ")",
       [Param.vecStr "[1]"] ++
         (splitTerms "").map (fun term => Param.str ("%" ++ term ++ "%"))) :=
  c4_amended (baseSelectVDB, [Param.vecStr "[1]"]) "" "genres" (Or.inl rfl)

/-- Claim C5: upsert is claimed idempotent per id.  The code violates
this: the INSERT of VectorDB upsert never supplies the id column, so the
SERIAL sequence assigns a fresh id to every row and the conflict branch
never fires, contradicting the conflict clause the statement itself
declares.  Upserting one record twice from an empty table leaves two
content-duplicate rows under distinct ids instead of one. -/
theorem c5_upsert_not_idempotent :
    upsert emptyTable [⟨"t", "m", "c", [1]⟩] =
      ⟨[⟨1, "t", "m", "c", [1]⟩], 2⟩ ∧
    upsert (upsert emptyTable [⟨"t", "m", "c", [1]⟩]) [⟨"t", "m", "c", [1]⟩] =
      ⟨[⟨1, "t", "m", "c", [1]⟩, ⟨2, "t", "m", "c", [1]⟩], 3⟩ ∧
    (upsert (upsert emptyTable [⟨"t", "m", "c", [1]⟩]) [⟨"t", "m", "c", [1]⟩]).rows.length ≠
      (upsert emptyTable [⟨"t", "m", "c", [1]⟩]).rows.length :=
  ⟨by decide, by decide, by decide⟩

set_option maxRecDepth 65536 in
/-- Claim C3 counterexample: a time range with start year greater than
end year is not rejected; the search succeeds, the formatted bounds are
bound in the given order, so the BETWEEN predicate has its lower bound
above its upper bound and matches no row, and the plan is handed to the
store.  No validation error of any kind is raised. -/
theorem c3_counterexample :
    vdbSearch [1] 5 [("time_range", FilterValue.range 2020 1960)] =
      Except.ok
        (baseSelectVDB ++
           " AND (metadata->>\x27release_date\x27)::timestamp BETWEEN %s AND %s" ++
           orderLimitSql,
         [Param.vecStr "[1]", Param.str "2020-01-01", Param.str "1960-12-31",
          Param.vecRaw [1], Param.int 5]) := by
  decide

/-- Claim C3 as amended: for a four-digit year pair with start greater
than end, search performs no validation: it builds the BETWEEN predicate
with the inverted bounds, January 1 of the start year and December 31 of
the end year, raises nothing, and queries the store with that plan. -/
theorem c3_amended (e : List Int) (l a b : Int)
    (ha1 : 1000 ≤ a) (ha2 : a ≤ 9999) (hb1 : 1000 ≤ b) (hb2 : b ≤ 9999)
    (hba : b < a) :
    vdbSearch e l [("time_range", FilterValue.range a b)] =
      Except.ok
        (baseSelectVDB ++
           " AND (metadata->>\x27release_date\x27)::timestamp BETWEEN %s AND %s" ++
           orderLimitSql,
         [Param.vecStr (vectorToStr e), Param.str (toString a ++ "-01-01"),
          Param.str (toString b ++ "-12-31"), Param.vecRaw e, Param.int l]) := by
  simp [vdbSearch, vdbBuild, applyFilters, List.foldl, filterStep, formatTimeRange]

/-- Witness for the amended claim C3, at the year pair 3000 and 2500. -/
theorem c3_witness :
    vdbSearch [2] 7 [("time_range", FilterValue.range 3000 2500)] =
      Except.ok
        (baseSelectVDB ++
           " AND (metadata->>\x27release_date\x27)::timestamp BETWEEN %s AND %s" ++
           orderLimitSql,
         [Param.vecStr (vectorToStr [2]), Param.str (toString (3000 : Int) ++ "-01-01"),
          Param.str (toString (2500 : Int) ++ "-12-31"), Param.vecRaw [2], Param.int 7]) :=
  c3_amended [2] 7 3000 2500 (by decide) (by decide) (by decide) (by decide) (by decide)

/-- Claim C6: the guard of delete counts the truthy criteria among ids,
metadata filter and delete-all; whenever that count is not exactly one,
delete fails with the mutual-exclusion error before any client deletion
is issued, so no records are removed.  The source raises this as a
ValueError, the error the specification names InvalidRequestError. -/
theorem c6_delete_mutual_exclusion (ids : Option (List String))
    (mf : Option (List (String × String))) (da : Bool)
    (h : specifiedCount ids mf da ≠ 1) :
    delete ids mf da = Except.error deleteErrMsg := by
  simp [delete, h]

/-- Witness for claim C6: ids and a metadata filter together. -/
theorem c6_witness :
    specifiedCount (some ["a"]) (some [("k", "v")]) false ≠ 1 ∧
    delete (some ["a"]) (some [("k", "v")]) false = Except.error deleteErrMsg :=
  ⟨by decide, c6_delete_mutual_exclusion (some ["a"]) (some [("k", "v")]) false (by decide)⟩

/-- Claim C7 counterexample: a mapping listing keywords before genres
binds the keywords parameter before the genres parameter, refuting the
claimed fixed key order of the parameter list; the claimed shape would
put the genres term first. -/
theorem c7_counterexample :
    (vdbBuild [1] 5 [("keywords", FilterValue.str "b"), ("genres", FilterValue.str "a")]).2 =
      [Param.vecStr "[1]", Param.str "%b%", Param.str "%a%",
       Param.vecRaw [1], Param.int 5] ∧
    ([Param.vecStr "[1]", Param.str "%b%", Param.str "%a%",
        Param.vecRaw [1], Param.int 5] : List Param) ≠
      [Param.vecStr "[1]", Param.str "%a%", Param.str "%b%",
       Param.vecRaw [1], Param.int 5] :=
  ⟨by decide, by decide⟩

/-- Claim C7 as amended: for every filter mapping the parameter list is
exactly the serialized query vector, then one parameter per filter
sub-predicate term in the iteration order of the mapping, then the raw
query embedding for the ORDER BY placeholder and the limit; its length is
two for the vector parameters plus one per genre or keyword term plus one
for original_language plus two for time_range plus one for the limit. -/
theorem c7_amended (e : List Int) (l : Int) (fs : List (String × FilterValue)) :
    (vdbBuild e l fs).2 =
      Param.vecStr (vectorToStr e) ::
        ((fs.map entryParams).flatten ++ [Param.vecRaw e, Param.int l]) ∧
    ((vdbBuild e l fs).2).length = 2 + (fs.map contribution).sum + 1 := by
  refine ⟨vdbBuild_params e l fs, ?_⟩
  rw [vdbBuild_params]
  simp only [List.length_cons, List.length_append, List.length_flatten, List.map_map]
  have hmap : List.map (List.length ∘ entryParams) fs = List.map contribution fs := by
    simp [Function.comp_def, entryParams_length]
  rw [hmap]
  simp
  omega

/-- Claim C8: a time range given as two four-digit years is normalized to
calendar boundaries, January 1 of the start year and December 31 of the
end year, both at midnight UTC, and the predicate is an inclusive BETWEEN
over the release date metadata field, with the two bounds bound in
order. -/
theorem c8_time_range_bounds (e : List Int) (l a b : Int)
    (ha1 : 1000 ≤ a) (ha2 : a ≤ 9999) (hb1 : 1000 ≤ b) (hb2 : b ≤ 9999)
    (hab : a ≤ b) :
    vdbBuild e l [("time_range", FilterValue.range a b)] =
      (baseSelectVDB ++
         " AND (metadata->>\x27release_date\x27)::timestamp BETWEEN %s AND %s" ++
         orderLimitSql,
       [Param.vecStr (vectorToStr e), Param.str (toString a ++ "-01-01"),
        Param.str (toString b ++ "-12-31"), Param.vecRaw e, Param.int l]) := by
  simp [vdbBuild, applyFilters, List.foldl, filterStep, formatTimeRange]

set_option maxRecDepth 65536 in
/-- Witness for claim C8, at the year pair of the specification example:
the bounds resolve to the first day of 1960 and the last day of 2020. -/
theorem c8_witness :
    vdbBuild [1] 5 [("time_range", FilterValue.range 1960 2020)] =
      (baseSelectVDB ++
         " AND (metadata->>\x27release_date\x27)::timestamp BETWEEN %s AND %s" ++
         orderLimitSql,
       [Param.vecStr "[1]", Param.str "1960-01-01", Param.str "2020-12-31",
        Param.vecRaw [1], Param.int 5]) := by
  rw [c8_time_range_bounds [1] 5 1960 2020 (by decide) (by decide) (by decide)
    (by decide) (by decide)]
  decide

set_option maxRecDepth 65536 in
/-- Claim C9 counterexample: VectorDB search invoked without an explicit
limit binds five, not ten, as the LIMIT parameter, and a call with limit
zero is not rejected: the plan is still built and handed to the store
with zero bound as the LIMIT. -/
theorem c9_counterexample :
    vdbSearchDefault [1] [] =
      Except.ok (baseSelectVDB ++ orderLimitSql,
        [Param.vecStr "[1]", Param.vecRaw [1], Param.int 5]) ∧
    Param.int vdbDefaultLimit ≠ Param.int 10 ∧
    vsSearch [1] 0 [] none =
      Except.ok (baseSelectVS ++ orderLimitSql,
        [Param.vecStr "[1]", Param.vecRaw [1], Param.int 0]) :=
  ⟨by decide, by decide, by decide⟩

/-- Claim C9 as amended: VectorDB search defaults its limit to five and
VectorStore search to ten, and neither validates the limit: for every
non-positive limit the request is still executed, with the given limit
bound as the final LIMIT parameter. -/
theorem c9_amended :
    vdbDefaultLimit = 5 ∧ vsDefaultLimit = 10 ∧
    (∀ (e : List Int) (l : Int) (md : List (String × FilterValue)), l ≤ 0 →
      vdbSearch e l md = Except.ok (vdbBuild e l md) ∧
      ((vdbBuild e l md).2).getLast? = some (Param.int l)) ∧
    (∀ (e : List Int) (l : Int) (mf : List (String × FilterValue))
        (tr : Option (String × String)), l ≤ 0 →
      vsSearch e l mf tr = Except.ok (vsBuild e l mf tr) ∧
      ((vsBuild e l mf tr).2).getLast? = some (Param.int l)) := by
  refine ⟨rfl, rfl, fun e l md _ => ⟨rfl, ?_⟩, fun e l mf tr _ => ⟨rfl, ?_⟩⟩
  · simp [vdbBuild, getLast?_append_pair]
  · simp [vsBuild, getLast?_append_pair]

/-- Witness for the amended claim C9, at limit zero. -/
theorem c9_witness :
    vdbSearch [2] 0 [] = Except.ok (vdbBuild [2] 0 []) ∧
    ((vdbBuild [2] 0 []).2).getLast? = some (Param.int 0) :=
  c9_amended.2.2.1 [2] 0 [] (by decide)

/-- Claim C10: the guard of delete decides whether a criterion was
specified by Python truthiness, so an explicitly passed empty ids list or
empty metadata filter dictionary counts as not provided; with delete-all
false such a call raises the mutual-exclusion error and no deletion is
ever issued to the underlying client. -/
theorem c10_empty_criteria_rejected (ids : Option (List String))
    (mf : Option (List (String × String)))
    (h1 : pyTruthy ids = false) (h2 : pyTruthy mf = false) :
    delete ids mf false = Except.error deleteErrMsg := by
  have hc : specifiedCount ids mf false ≠ 1 := by
    simp [specifiedCount, h1, h2]
  simp [delete, hc]

/-- Witness for claim C10: an explicitly passed empty ids list and an
explicitly passed empty metadata filter. -/
theorem c10_witness :
    pyTruthy (some ([] : List String)) = false ∧
    pyTruthy (some ([] : List (String × String))) = false ∧
    delete (some []) (some []) false = Except.error deleteErrMsg :=
  ⟨by decide, by decide,
   c10_empty_criteria_rejected (some []) (some []) (by decide) (by decide)⟩

end Recommender
